import Mathlib

/-!
Shallow embedding of `alby/alby_oauth_service.go` (Alby Hub's OAuth bridge
service): token cache and refresh, OAuth callback, shared-balance drain,
telemetry relay with redaction, LSP info parsing, auto-channel fee
validation, and the provisioning client.

Conventions:
* Go machine integers are `Nat`/`Int`; conversions such as `uint64(x)` and
  `uint16(x)` are explicit `% 2 ^ w` wraps.
* Fallible Go calls (`..., err :=`) become `Except String _` values; external
  collaborators (HTTP, the OAuth token endpoint, the bolt11 decoder) are
  passed in as explicit outcome parameters, so every function is a pure state
  transformer over the data it actually touches.
* `float64` arithmetic in `DrainSharedWallet` is modelled as exact rational
  arithmetic over `ℚ` (the literals `8.0/1000.0` and `0.01` become the
  rationals `8/1000` and `1/100`).
-/

deriving instance DecidableEq for Except

namespace AlbyHub

/-! ### Go integer and strconv primitives -/

/-- Go `uint64(i)` conversion of a signed 64-bit value: two's-complement
reinterpretation, i.e. the value modulo `2 ^ 64`. -/
def goUint64OfInt (i : Int) : Nat := (i.emod (2 ^ 64)).toNat

/-- Go `uint16(n)` truncation of a nonnegative `int` value. -/
def goUint16OfInt (i : Int) : Nat := (i.emod (2 ^ 16)).toNat

def isDecDigit (c : Char) : Bool := 48 ≤ c.toNat && c.toNat ≤ 57

/-- Accumulate decimal digits; `none` on the first non-digit character. -/
def digitsVal : List Char → Nat → Option Nat
  | [], acc => some acc
  | c :: rest, acc =>
      if isDecDigit c then digitsVal rest (acc * 10 + (c.toNat - 48)) else none

/-- Value of a nonempty all-digit character list, `none` otherwise. -/
def parseDigits : List Char → Option Nat
  | [] => none
  | l => digitsVal l 0

/-- Go `strconv.ParseUint(s, 10, 64)`: no sign prefix, decimal digits only,
error above `2 ^ 64 - 1`. -/
def parseUint64 (s : String) : Option Nat :=
  match parseDigits s.data with
  | none => none
  | some n => if n < 2 ^ 64 then some n else none

/-- Go `strconv.ParseInt(s, 10, 64)` (also `strconv.Atoi` on 64-bit
platforms): optional sign, decimal digits, range `[-2^63, 2^63 - 1]`. -/
def parseInt64 (s : String) : Option Int :=
  match s.data with
  | '+' :: rest =>
      match parseDigits rest with
      | none => none
      | some n => if n ≤ 2 ^ 63 - 1 then some (n : Int) else none
  | '-' :: rest =>
      match parseDigits rest with
      | none => none
      | some n => if n ≤ 2 ^ 63 then some (-(n : Int)) else none
  | l =>
      match parseDigits l with
      | none => none
      | some n => if n ≤ 2 ^ 63 - 1 then some (n : Int) else none

/-- Go `strings.HasPrefix(s, pre)`. -/
def strHasPrefix (s pre : String) : Bool := pre.data.isPrefixOf s.data

/-! ### Shared-balance drain (`DrainSharedWallet`, lines 285–319)

The fee computation on the custodial balance.  The Go code does the
arithmetic in `float64`; here it is modelled as exact rational arithmetic. -/

/-- The `amountSat` computation of `DrainSharedWallet`:
`int64(math.Floor(balanceSat - balanceSat*(8.0/1000.0) - balanceSat*0.01)) - 10`. -/
def drainAmountSat (balance : Nat) : Int :=
  let balanceSat : ℚ := balance
  ⌊balanceSat - balanceSat * (8 / 1000) - balanceSat * (1 / 100)⌋ - 10

/-- `DrainSharedWallet` after the balance fetch succeeded: computes the
drainable amount, errors below 1 sat, otherwise requests an invoice over
`amountSat * 1000` millisats.  The returned value is that msat amount. -/
def DrainSharedWallet (balance : Nat) : Except String Int :=
  let amountSat := drainAmountSat balance
  if amountSat < 1 then .error "Not enough balance remaining"
  else .ok (amountSat * 1000)

/-! ### Property maps and the global-property merge (`ConsumeEvent`, lines 596–608) -/

/-- JSON property values as relayed to the events endpoint (the shapes this
service actually produces: strings and integers). -/
inductive PropValue
  | str (s : String)
  | num (n : Int)
deriving DecidableEq

/-- Lookup in an association-list model of a Go `map[string]...`. -/
def lookupKey {α : Type} (k : String) : List (String × α) → Option α
  | [] => none
  | (k', v) :: rest => if k' = k then some v else lookupKey k rest

/-- The global-property merge loop of `ConsumeEvent`: iterate the global
properties and add each one to the event's property map unless the key
already exists there (in which case the global value is dropped and the
conflict logged). -/
def mergeGlobalProperties {α : Type} (eventProps globalProps : List (String × α)) :
    List (String × α) :=
  globalProps.foldl
    (fun acc kv => if (lookupKey kv.1 acc).isSome then acc else acc ++ [kv])
    eventProps

theorem lookupKey_append {α : Type} (k : String) (l₁ l₂ : List (String × α)) :
    lookupKey k (l₁ ++ l₂) =
      match lookupKey k l₁ with
      | some v => some v
      | none => lookupKey k l₂ := by
  induction l₁ with
  | nil => simp [lookupKey]
  | cons hd tl ih =>
      obtain ⟨k', v⟩ := hd
      by_cases h : k' = k <;> simp [lookupKey, h, ih]

theorem mergeGlobalProperties_foldl_lookup {α : Type} (k : String)
    (g : List (String × α)) :
    ∀ acc : List (String × α),
      lookupKey k (mergeGlobalProperties acc g) =
        match lookupKey k acc with
        | some v => some v
        | none => lookupKey k g := by
  induction g with
  | nil =>
      intro acc
      cases h : lookupKey k acc <;> simp [mergeGlobalProperties, lookupKey, h]
  | cons hd tl ih =>
      intro acc
      obtain ⟨k', v⟩ := hd
      show lookupKey k (List.foldl _ (if (lookupKey k' acc).isSome then acc else acc ++ [(k', v)]) tl) = _
      cases hk' : lookupKey k' acc with
      | some w =>
          simp only [hk', Option.isSome_some, if_pos]
          have := ih acc
          rw [show List.foldl _ acc tl = mergeGlobalProperties acc tl from rfl] at *
          rw [this]
          by_cases h : k' = k
          · subst h
            simp [lookupKey, hk']
          · simp [lookupKey, h]
      | none =>
          simp only [hk', Option.isSome_none, Bool.false_eq_true, if_neg, not_false_iff]
          have := ih (acc ++ [(k', v)])
          rw [show List.foldl _ (acc ++ [(k', v)]) tl = mergeGlobalProperties (acc ++ [(k', v)]) tl from rfl] at *
          rw [this, lookupKey_append]
          by_cases h : k' = k
          · subst h
            simp [lookupKey, hk']
          · cases hacc : lookupKey k acc <;> simp [lookupKey, h, hacc]

/-! ### OAuth token cache (`saveToken` / `fetchUserToken`, lines 151–213)

The config store is modelled by the five string values this service keys:
access token, access-token expiry, refresh token, user identifier and
lightning address.  Config-store read/write failures are not modelled (the
claims condition on stored sessions). -/

structure OAuthToken where
  accessToken : String
  /-- Unix-seconds expiry (`token.Expiry.Unix()`). -/
  expiry : Int
  refreshToken : String
deriving DecidableEq

structure ConfigState where
  accessToken : String
  accessTokenExpiry : String
  refreshToken : String
  userIdentifier : String
  lightningAddress : String
deriving DecidableEq

/-- `saveToken`: persist expiry (as a decimal string), access token and
refresh token. -/
def saveToken (st : ConfigState) (token : OAuthToken) : ConfigState :=
  { st with
    accessTokenExpiry := toString token.expiry
    accessToken := token.accessToken
    refreshToken := token.refreshToken }

/-- `fetchUserToken`: read the cached session; return `none` when any of the
three fields is empty; use the cached token if its expiry is strictly more
than 20 seconds after `now`; otherwise run the refresh exchange (modelled by
`refreshResult`), persist and return its token.  The result carries the
returned token, the updated config state, and whether a refresh exchange was
performed. -/
def fetchUserToken (st : ConfigState) (now : Int)
    (refreshResult : Except String OAuthToken) :
    Except String (Option OAuthToken × ConfigState × Bool) :=
  if st.accessToken = "" then .ok (none, st, false)
  else if st.accessTokenExpiry = "" then .ok (none, st, false)
  else
    match parseInt64 st.accessTokenExpiry with
    | none => .error "strconv.ParseInt: invalid syntax"
    | some expiry64 =>
      if st.refreshToken = "" then .ok (none, st, false)
      else
        let currentToken : OAuthToken := ⟨st.accessToken, expiry64, st.refreshToken⟩
        -- only use the current token if it has at least 20 seconds before expiry
        if now + 20 < expiry64 then .ok (some currentToken, st, false)
        else
          match refreshResult with
          | .error e => .error e
          | .ok newToken => .ok (some newToken, saveToken st newToken, true)

/-! ### OAuth callback (`CallbackHandler`, lines 82–123)

The authorization-code exchange and the `/me` identity fetch are external
calls, passed in as outcomes.  On a successful identity fetch, `GetMe`
persists the lightning address (line 245).  The auto-link branch only
touches the app database, never the config state, and its error is logged,
not propagated (lines 108–114). -/

structure AlbyMe where
  identifier : String
  lightningAddress : String
deriving DecidableEq

def CROSS_ACCOUNT_ERROR : String :=
  "Alby Hub is connected to a different alby account. Please log out of your Alby Account at getalby.com and try again."

def CallbackHandler (st : ConfigState) (exchangeResult : Except String OAuthToken)
    (meResult : Except String AlbyMe) : Except String Unit × ConfigState :=
  match exchangeResult with
  | .error e => (.error e, st)
  | .ok token =>
    let st1 := saveToken st token
    match meResult with
    | .error e =>
        -- remove token so user can retry
        (.error e, { st1 with accessToken := "" })
    | .ok me =>
        let st2 := { st1 with lightningAddress := me.lightningAddress }
        if st2.userIdentifier = "" then
          -- save the user's alby account ID on first time login
          (.ok (), { st2 with userIdentifier := me.identifier })
        else if me.identifier ≠ st2.userIdentifier then
          -- remove token so user can retry with correct account
          (.error CROSS_ACCOUNT_ERROR, { st2 with accessToken := "" })
        else (.ok (), st2)

/-! ### Telemetry relay (`ConsumeEvent`, lines 476–641)

`db.Transaction` lives outside the given sources; it is modelled with the
fields this file reads (`PaymentHash`, `SettledAt`, `CreatedAt`,
`FailureReason`) plus representative further fields, so that "no other field
is sent" is expressible.  An event's `Properties interface{}` payload is a
transaction, a channel-backup payload, or an already-map-shaped payload;
Go type assertions on the wrong variant panic. -/

structure Transaction where
  paymentHash : String
  preimage : String
  amountMsat : Int
  feesPaidMsat : Int
  /-- Unix seconds of `CreatedAt`. -/
  createdAtUnix : Int
  /-- Unix seconds of `SettledAt`. -/
  settledAtUnix : Int
  failureReason : String
deriving DecidableEq

inductive EventProperties
  | transaction (t : Transaction)
  | channelBackup (data : String)
  | propMap (props : List (String × PropValue))
deriving DecidableEq

structure Event where
  /-- The `Event string` name field. -/
  event : String
  properties : EventProperties
deriving DecidableEq

/-- Result of a Go function body that may panic (e.g. a failed type
assertion); `ConsumeEvent`'s deferred `recover` turns `panicked` into a
logged no-op. -/
inductive GoResult (α : Type)
  | ok (a : α)
  | panicked (msg : String)
deriving DecidableEq

/-- The JSON property map an event's properties serialize to (encode at line
578, decode into `eventWithPropertiesMap` at line 591).  A raw transaction
serializes with all of its fields. -/
def eventPropsToMap : EventProperties → List (String × PropValue)
  | .transaction t =>
      [("payment_hash", .str t.paymentHash), ("preimage", .str t.preimage),
       ("amount", .num t.amountMsat), ("fees_paid", .num t.feesPaidMsat),
       ("created_at", .num t.createdAtUnix), ("settled_at", .num t.settledAtUnix),
       ("failure_reason", .str t.failureReason)]
  | .channelBackup data => [("data", .str data)]
  | .propMap props => props

/-- The payment-lifecycle rewriting of `ConsumeEvent` (lines 517–566):
received and sent events are rebuilt from a `*db.Transaction` assertion that
panics on any other payload; failed events use the `, ok` form and drop the
event on a failed cast.  `some` carries the (possibly rewritten) event. -/
def rewritePaymentEvent (e : Event) : GoResult (Option Event) :=
  if e.event = "nwc_payment_received" then
    match e.properties with
    | .transaction t =>
        .ok (some ⟨e.event, .propMap [("payment_hash", .str t.paymentHash)]⟩)
    | _ => .panicked "interface conversion"
  else if e.event = "nwc_payment_sent" then
    match e.properties with
    | .transaction t =>
        .ok (some ⟨e.event, .propMap
          [("payment_hash", .str t.paymentHash),
           ("duration", .num (goUint64OfInt (t.settledAtUnix - t.createdAtUnix)))]⟩)
    | _ => .panicked "interface conversion"
  else if e.event = "nwc_payment_failed" then
    match e.properties with
    | .transaction t =>
        .ok (some ⟨e.event, .propMap
          [("payment_hash", .str t.paymentHash), ("reason", .str t.failureReason)]⟩)
    | _ => .ok none
  else .ok (some e)

structure EventEnvelope where
  event : String
  properties : List (String × PropValue)
deriving DecidableEq

/-- What the relay did with an event: dropped it (no session, telemetry off,
internal event, failed cast, token failure), routed it to the channel-backup
uploader, or POSTed an envelope to the events endpoint (a non-success HTTP
status is logged only, so it is still `posted`). -/
inductive RelayOutcome
  | dropped
  | backedUp
  | posted (payload : EventEnvelope)
deriving DecidableEq

/-- The body of `ConsumeEvent` without its deferred `recover`: everything
from the access-token read (line 484) to the POST (line 626). -/
def consumeEventBody (accessTokenResult : Except String String) (logEvents : Bool)
    (tokenFetchResult : Except String Unit) (e : Event)
    (globalProperties : List (String × PropValue)) : GoResult RelayOutcome :=
  match accessTokenResult with
  | .error _ => .ok .dropped
  | .ok accessToken =>
    if accessToken = "" then .ok .dropped
    else if !logEvents then .ok .dropped
    else if e.event = "nwc_backup_channels" then
      -- routed to the backup uploader; its error is logged, never surfaced
      .ok .backedUp
    else if strHasPrefix e.event "nwc_lnclient_" then .ok .dropped
    else
      match rewritePaymentEvent e with
      | .panicked m => .panicked m
      | .ok none => .ok .dropped
      | .ok (some e2) =>
        match tokenFetchResult with
        | .error _ => .ok .dropped
        | .ok _ =>
          let props := eventPropsToMap e2.properties
          .ok (.posted ⟨e2.event, mergeGlobalProperties props globalProperties⟩)

/-- `ConsumeEvent` as its caller observes it: the deferred `recover`
(lines 477–482) converts any panic of the body into a logged no-op; the
function itself returns nothing and raises nothing. -/
def ConsumeEvent (accessTokenResult : Except String String) (logEvents : Bool)
    (tokenFetchResult : Except String Unit) (e : Event)
    (globalProperties : List (String × PropValue)) : GoResult Unit :=
  match consumeEventBody accessTokenResult logEvents tokenFetchResult e globalProperties with
  | .panicked _ => .ok ()
  | .ok _ => .ok ()

/-! ### LSP info parsing (`getLSPInfo`, lines 1057–1135)

Only the URI processing after a successful HTTP fetch and JSON decode is
modelled: filter out onion URIs, take the first remaining candidate, match
it against `^([0-9a-f]+)@([0-9]+\.[0-9]+\.[0-9]+\.[0-9]+):([0-9]+)$`, and
parse the port.  Go's multiple return `(pubkey, address, port, err)` becomes
a pair of the value triple and an optional error — the error is `none`
exactly when the Go `error` is `nil`. -/

def listContainsSub (sub : List Char) : List Char → Bool
  | [] => sub.isEmpty
  | c :: rest => sub.isPrefixOf (c :: rest) || listContainsSub sub rest

/-- Go `strings.Contains(s, sub)`. -/
def strContainsSub (s sub : String) : Bool := listContainsSub sub.data s.data

/-- Split a character list at every occurrence of `sep` (the one-character
case of Go's `strings.Split` / the separator structure of the regex). -/
def splitOnChar (sep : Char) : List Char → List (List Char)
  | [] => [[]]
  | c :: rest =>
    let r := splitOnChar sep rest
    if c = sep then [] :: r
    else
      match r with
      | [] => [[c]]
      | h :: t => (c :: h) :: t

def isHexLowerDigit (c : Char) : Bool :=
  isDecDigit c || (97 ≤ c.toNat && c.toNat ≤ 102)

/-- The regex `^([0-9a-f]+)@([0-9]+\.[0-9]+\.[0-9]+\.[0-9]+):([0-9]+)$` as a
deterministic parser (no class contains `@`, `:` or `.` across groups, so a
match decomposes uniquely): exactly one `@`, the part before it nonempty
lowercase-hex; exactly one `:` after it; the address exactly four nonempty
digit runs joined by `.`; the port a nonempty digit run. -/
def matchLspUri (uri : String) : Option (String × String × String) :=
  match splitOnChar '@' uri.data with
  | [pk, rest] =>
    if !pk.isEmpty && pk.all isHexLowerDigit then
      match splitOnChar ':' rest with
      | [addr, portStr] =>
        if !portStr.isEmpty && portStr.all isDecDigit then
          match splitOnChar '.' addr with
          | [a, b, c, d] =>
            if [a, b, c, d].all (fun x => !x.isEmpty && x.all isDecDigit) then
              some (⟨pk⟩, ⟨addr⟩, ⟨portStr⟩)
            else none
          | _ => none
        else none
      | _ => none
    else none
  | _ => none

/-- The URI processing of `getLSPInfo` (lines 1108–1134).  In the branch
where no non-onion URI remains, the Go code executes
`return "", "", uint16(0), err` — and `err` is `nil` at that point (the last
assignment was the successful `json.Unmarshal`), so the returned error is
`none` even though an error is logged. -/
def getLSPInfo (uris : List String) : (String × String × Nat) × Option String :=
  let httpUris := uris.filter (fun uri => !(strContainsSub uri ".onion"))
  match httpUris with
  | [] => (("", "", 0), none)
  | uri :: _ =>
    match matchLspUri uri with
    | none => (("", "", 0), some "could not decode LSP URI")
    | some (pk, addr, portStr) =>
      match parseInt64 portStr with
      | none => (("", "", 0), some "strconv.Atoi: value out of range")
      | some portValue => ((pk, addr, goUint16OfInt portValue), none)

/-! ### Auto-channel fee validation (`requestAutoChannel`, lines 928–1055)

Only the response validation after a successful HTTP round trip and JSON
deserialization is modelled.  The bolt11 decoder (`decodepay.Decodepay`) is
an external collaborator producing a millisatoshi amount (`MSatoshi int64`);
it is passed in as a function parameter. -/

structure LSPS1Bolt11 where
  invoice : String
  feeTotalSat : String
deriving DecidableEq

structure LSPS1Payment where
  bolt11 : LSPS1Bolt11
deriving DecidableEq

structure AutoChannelHttpResponse where
  lspBalanceSat : String
  payment : Option LSPS1Payment
deriving DecidableEq

/-- Output of the external bolt11 decoder. -/
structure Bolt11Invoice where
  msatoshi : Int
deriving DecidableEq

structure AutoChannelResponse where
  invoice : String
  fee : Nat
  channelSize : Nat
deriving DecidableEq

/-- Lines 1014–1054: when a payment is present, parse `fee_total_sat`
(`strconv.ParseUint`), decode the invoice, and reject the response unless
`fee == uint64(paymentRequest.MSatoshi/1000)` (Go `/` on `int64` truncates
toward zero); then parse `lsp_balance_sat` and build the result. -/
def requestAutoChannel (decodeInvoice : String → Except String Bolt11Invoice)
    (resp : AutoChannelHttpResponse) : Except String AutoChannelResponse :=
  let step : Except String (String × Nat) :=
    match resp.payment with
    | none => .ok ("", 0)
    | some payment =>
      let invoice := payment.bolt11.invoice
      match parseUint64 payment.bolt11.feeTotalSat with
      | none => .error "failed to parse fee"
      | some fee =>
        match decodeInvoice invoice with
        | .error e => .error e
        | .ok paymentRequest =>
          if fee ≠ goUint64OfInt (Int.tdiv paymentRequest.msatoshi 1000) then
            .error "invoice amount does not match LSP fee"
          else .ok (invoice, fee)
  match step with
  | .error e => .error e
  | .ok (invoice, fee) =>
    match parseUint64 resp.lspBalanceSat with
    | none => .error "failed to parse lsp balance sat"
    | some channelSize => .ok ⟨invoice, fee, channelSize⟩

/-! ### Provisioning client (`createAlbyAccountNWCNode` lines 706–770,
`destroyAlbyAccountNWCNode` lines 772–804,
`activateAlbyAccountNWCNode` lines 806–838)

Each operation starts with `token, err := svc.fetchUserToken(ctx)` and, when
`err != nil`, only logs it — there is no early return, and `token` is `nil`
in that case, so the authenticated request proceeds with a nil token.  The
HTTP round trip is modelled by `doRequest`, keyed on the token handed to the
OAuth HTTP client; each function returns that token alongside its result. -/

structure HttpResponse where
  statusCode : Nat
  /-- JSON decode of the `CreateNWCNodeResponse` body (create only). -/
  pubkeyPayload : Except String String
deriving DecidableEq

/-- The `token` variable as it reaches `svc.oauthConf.Client(ctx, token)`:
on a fetch error it is Go's zero value `nil`. -/
def tokenForHttpClient (tokenResult : Except String (Option OAuthToken)) :
    Option OAuthToken :=
  match tokenResult with
  | .error _ => none
  | .ok t => t

def createAlbyAccountNWCNode (tokenResult : Except String (Option OAuthToken))
    (doRequest : Option OAuthToken → Except String HttpResponse) :
    Option OAuthToken × Except String String :=
  let token := tokenForHttpClient tokenResult
  (token,
    match doRequest token with
    | .error e => .error e
    | .ok resp =>
      if 300 ≤ resp.statusCode then
        .error "request to /internal/nwcs returned non-success status"
      else resp.pubkeyPayload)

def destroyAlbyAccountNWCNode (tokenResult : Except String (Option OAuthToken))
    (doRequest : Option OAuthToken → Except String HttpResponse) :
    Option OAuthToken × Except String Unit :=
  let token := tokenForHttpClient tokenResult
  (token,
    match doRequest token with
    | .error e => .error e
    | .ok resp =>
      if 300 ≤ resp.statusCode then
        .error "request to /internal/nwcs returned non-success status"
      else .ok ())

def activateAlbyAccountNWCNode (tokenResult : Except String (Option OAuthToken))
    (doRequest : Option OAuthToken → Except String HttpResponse) :
    Option OAuthToken × Except String Unit :=
  let token := tokenForHttpClient tokenResult
  (token,
    match doRequest token with
    | .error e => .error e
    | .ok resp =>
      if 300 ≤ resp.statusCode then
        .error "request to /internal/nwcs/activate returned non-success status"
      else .ok ())

/-! ## Theorems -/

/-- C2: for every custodial balance `b` in satoshis, `DrainSharedWallet`
computes the withdrawable amount as `floor(b − b×0.008 − b×0.01) − 10`
(which in integers is `b * 982 / 1000 − 10`), fails with the
insufficient-balance error exactly when that amount is below 1 satoshi, and
otherwise requests an invoice over `amount × 1000` millisatoshis; in
particular balance 1000 yields 972 sats (972000 msat requested) and balance
10 yields the insufficient-balance error. -/
theorem DrainSharedWallet_math :
    (∀ b : Nat,
      drainAmountSat b = ((b * 982 / 1000 : ℕ) : ℤ) - 10 ∧
      DrainSharedWallet b =
        if b * 982 / 1000 < 11 then Except.error "Not enough balance remaining"
        else Except.ok ((((b * 982 / 1000 : ℕ) : ℤ) - 10) * 1000)) ∧
    DrainSharedWallet 1000 = Except.ok 972000 ∧
    DrainSharedWallet 10 = Except.error "Not enough balance remaining" := by
  have hclosed : ∀ b : Nat, drainAmountSat b = ((b * 982 / 1000 : ℕ) : ℤ) - 10 := by
    intro b
    have h : ((b : ℚ)) - (b : ℚ) * (8 / 1000) - (b : ℚ) * (1 / 100) =
        (((b * 982 : ℕ) : ℤ) : ℚ) / ((1000 : ℕ) : ℚ) := by
      push_cast
      ring
    simp only [drainAmountSat]
    rw [h, Rat.floor_intCast_div_natCast]
    norm_cast
  have hmain : ∀ b : Nat,
      DrainSharedWallet b =
        if b * 982 / 1000 < 11 then Except.error "Not enough balance remaining"
        else Except.ok ((((b * 982 / 1000 : ℕ) : ℤ) - 10) * 1000) := by
    intro b
    simp only [DrainSharedWallet]
    rw [hclosed b]
    by_cases hlt : b * 982 / 1000 < 11
    · rw [if_pos (by omega), if_pos hlt]
    · rw [if_neg (by omega), if_neg hlt]
  refine ⟨fun b => ⟨hclosed b, hmain b⟩, ?_, ?_⟩
  · rw [hmain 1000]
    norm_num
  · rw [hmain 10]
    norm_num

/-- C8: the global-property merge of `ConsumeEvent` adds a global key only
when it is absent from the event's own properties — on a collision the
global value is dropped and the event-local value kept (stated as: every key
resolves to its event-local value if one exists, and to its global value
otherwise) — and on the concrete example, event `{paymentHash: "abc"}`
merged with globals `{paymentHash: "xyz", version: "1"}` yields exactly
`{paymentHash: "abc", version: "1"}`. -/
theorem ConsumeEvent_global_property_merge :
    (∀ (α : Type) (eventProps globalProps : List (String × α)) (k : String),
      lookupKey k (mergeGlobalProperties eventProps globalProps) =
        match lookupKey k eventProps with
        | some v => some v
        | none => lookupKey k globalProps) ∧
    mergeGlobalProperties [("paymentHash", PropValue.str "abc")]
        [("paymentHash", PropValue.str "xyz"), ("version", PropValue.str "1")] =
      [("paymentHash", PropValue.str "abc"), ("version", PropValue.str "1")] := by
  exact ⟨fun α e g k => mergeGlobalProperties_foldl_lookup k g e, by decide⟩

/-- C3: for a stored session with non-empty access and refresh tokens (and a
parseable expiry), `fetchUserToken` returns the cached session unchanged
with no refresh call exactly when the stored expiry is more than 20 seconds
after the current time; otherwise it performs the refresh exchange, persists
the new token and returns it. -/
theorem fetchUserToken_expiry_buffer
    (st : ConfigState) (now expiry64 : Int) (t' : OAuthToken)
    (refreshResult : Except String OAuthToken)
    (hA : st.accessToken ≠ "") (hR : st.refreshToken ≠ "")
    (hE : parseInt64 st.accessTokenExpiry = some expiry64) :
    (fetchUserToken st now refreshResult =
        .ok (some ⟨st.accessToken, expiry64, st.refreshToken⟩, st, false) ↔
      now + 20 < expiry64) ∧
    (¬ now + 20 < expiry64 → refreshResult = .ok t' →
      fetchUserToken st now refreshResult = .ok (some t', saveToken st t', true)) := by
  have hexp_ne : st.accessTokenExpiry ≠ "" := by
    intro h
    rw [h] at hE
    rw [show parseInt64 "" = none by decide] at hE
    exact Option.noConfusion hE
  constructor
  · constructor
    · intro heq
      by_contra hc
      simp only [fetchUserToken, if_neg hA, if_neg hexp_ne, hE, if_neg hR,
        if_neg hc] at heq
      cases refreshResult with
      | error e => exact Except.noConfusion heq
      | ok t'' => simp at heq
    · intro hc
      simp only [fetchUserToken, if_neg hA, if_neg hexp_ne, hE, if_neg hR, if_pos hc]
  · intro hc hrr
    simp only [fetchUserToken, if_neg hA, if_neg hexp_ne, hE, if_neg hR, if_neg hc, hrr]

def tokenStoredExample : ConfigState := ⟨"at", "1000", "rt", "", ""⟩

def tokenRefreshedExample : OAuthToken := ⟨"newat", 5000, "newrt"⟩

/-- C3 witness: with stored expiry 1000, a call at time 979 (expiry in 21 s)
returns the cached token with no refresh; a call at time 981 (expiry in
19 s) performs the refresh and persists its token. -/
theorem fetchUserToken_expiry_buffer_witness :
    fetchUserToken tokenStoredExample 979 (.ok tokenRefreshedExample) =
      .ok (some ⟨"at", 1000, "rt"⟩, tokenStoredExample, false) ∧
    fetchUserToken tokenStoredExample 981 (.ok tokenRefreshedExample) =
      .ok (some tokenRefreshedExample, saveToken tokenStoredExample tokenRefreshedExample, true) :=
  ⟨((fetchUserToken_expiry_buffer tokenStoredExample 979 1000 tokenRefreshedExample
      (.ok tokenRefreshedExample) (by decide) (by decide) (by decide)).1).mpr (by decide),
   (fetchUserToken_expiry_buffer tokenStoredExample 981 1000 tokenRefreshedExample
      (.ok tokenRefreshedExample) (by decide) (by decide) (by decide)).2 (by decide) rfl⟩

def cxStored : ConfigState := ⟨"oldAT", "100", "oldRT", "user1", "old@getalby.com"⟩

def cxToken : OAuthToken := ⟨"newAT", 9999, "newRT"⟩

def cxMe : AlbyMe := ⟨"user2", "new@getalby.com"⟩

/-- C4 counterexample: with stored identity `"user1"` and a callback that
resolves to `"user2"`, `CallbackHandler` does return the cross-account
error, but only the access token is cleared — the refresh token and expiry
written by the fresh exchange remain stored, so it is false that all
session fields are left empty. -/
theorem CallbackHandler_mismatch_counterexample :
    (CallbackHandler cxStored (.ok cxToken) (.ok cxMe)).1 =
        .error CROSS_ACCOUNT_ERROR ∧
    (CallbackHandler cxStored (.ok cxToken) (.ok cxMe)).2.accessToken = "" ∧
    (CallbackHandler cxStored (.ok cxToken) (.ok cxMe)).2.refreshToken = "newRT" ∧
    (CallbackHandler cxStored (.ok cxToken) (.ok cxMe)).2.accessTokenExpiry = "9999" ∧
    ¬ ((CallbackHandler cxStored (.ok cxToken) (.ok cxMe)).2.refreshToken = "" ∧
       (CallbackHandler cxStored (.ok cxToken) (.ok cxMe)).2.accessTokenExpiry = "") := by
  decide

/-- C4 (amended): on a cross-account mismatch, `CallbackHandler` clears the
access token (so the cached session is treated as absent), returns the
cross-account-mismatch error, and leaves the stored identity unchanged; the
refresh token and expiry persisted by the fresh exchange remain stored. -/
theorem CallbackHandler_cross_account_mismatch
    (st : ConfigState) (token : OAuthToken) (me : AlbyMe)
    (hStored : st.userIdentifier ≠ "") (hDiff : me.identifier ≠ st.userIdentifier) :
    CallbackHandler st (.ok token) (.ok me) =
      (.error CROSS_ACCOUNT_ERROR,
        { accessToken := ""
          accessTokenExpiry := toString token.expiry
          refreshToken := token.refreshToken
          userIdentifier := st.userIdentifier
          lightningAddress := me.lightningAddress }) := by
  simp [CallbackHandler, saveToken, hStored, hDiff]

/-- C4 witness: the amended mismatch behavior at the concrete input of the
counterexample. -/
theorem CallbackHandler_cross_account_mismatch_witness :
    cxStored.userIdentifier ≠ "" ∧ cxMe.identifier ≠ cxStored.userIdentifier ∧
    CallbackHandler cxStored (.ok cxToken) (.ok cxMe) =
      (.error CROSS_ACCOUNT_ERROR,
        { accessToken := ""
          accessTokenExpiry := toString cxToken.expiry
          refreshToken := cxToken.refreshToken
          userIdentifier := cxStored.userIdentifier
          lightningAddress := cxMe.lightningAddress }) :=
  ⟨by decide, by decide,
   CallbackHandler_cross_account_mismatch cxStored cxToken cxMe (by decide) (by decide)⟩

/-- C5: `ConsumeEvent` returns normally to its caller for every event,
global-property map and internal outcome — the deferred `recover` confines
every panic, including the type-assertion panic on a malformed payment-event
payload, which the middle clause exhibits on a concrete input. -/
theorem ConsumeEvent_never_panics :
    (∀ (accessTokenResult : Except String String) (logEvents : Bool)
       (tokenFetchResult : Except String Unit) (e : Event)
       (globalProperties : List (String × PropValue)),
      ConsumeEvent accessTokenResult logEvents tokenFetchResult e globalProperties =
        .ok ()) ∧
    consumeEventBody (.ok "tok") true (.ok ())
        ⟨"nwc_payment_received", .propMap []⟩ [] =
      .panicked "interface conversion" ∧
    ConsumeEvent (.ok "tok") true (.ok ())
        ⟨"nwc_payment_received", .propMap []⟩ [] = .ok () := by
  refine ⟨fun a l t e g => ?_, by decide, by decide⟩
  unfold ConsumeEvent
  cases consumeEventBody a l t e g <;> rfl

/-- C6: for every payment-lifecycle event relayed by `ConsumeEvent`, the
event's own transmitted properties are exactly the reduced-detail variant
for its name — received `{payment_hash}`, sent `{payment_hash, duration =
settledAt − createdAt}`, failed `{payment_hash, reason}` — so no other field
of the original transaction reaches the wire. -/
theorem ConsumeEvent_payment_redaction :
    ∀ (t : Transaction) (g : List (String × PropValue)),
      consumeEventBody (.ok "tok") true (.ok ())
          ⟨"nwc_payment_received", .transaction t⟩ g =
        .ok (.posted ⟨"nwc_payment_received",
          mergeGlobalProperties [("payment_hash", .str t.paymentHash)] g⟩) ∧
      consumeEventBody (.ok "tok") true (.ok ())
          ⟨"nwc_payment_sent", .transaction t⟩ g =
        .ok (.posted ⟨"nwc_payment_sent",
          mergeGlobalProperties
            [("payment_hash", .str t.paymentHash),
             ("duration", .num (goUint64OfInt (t.settledAtUnix - t.createdAtUnix)))] g⟩) ∧
      consumeEventBody (.ok "tok") true (.ok ())
          ⟨"nwc_payment_failed", .transaction t⟩ g =
        .ok (.posted ⟨"nwc_payment_failed",
          mergeGlobalProperties
            [("payment_hash", .str t.paymentHash),
             ("reason", .str t.failureReason)] g⟩) := by
  intro t g
  exact ⟨rfl, rfl, rfl⟩

/-- C7: contrary to the claim, `getLSPInfo` does not return a hard error
whenever no matching candidate exists: when every advertised URI contains
`.onion` (or the list is empty) it returns a `nil` error — the `return`
hands back the `err` variable, which still holds `nil` from the successful
JSON decode — so the caller observes success with empty pubkey/address and
port 0.  A first candidate that fails the pattern match does produce the
hard error, and a matching candidate is parsed, as the last two clauses
show. -/
theorem getLSPInfo_onion_only_nil_error :
    getLSPInfo ["030011aabb@liquidity.example.onion:9735"] = (("", "", 0), none) ∧
    getLSPInfo [] = (("", "", 0), none) ∧
    getLSPInfo ["lsp.example.com:9735"] =
      (("", "", 0), some "could not decode LSP URI") ∧
    getLSPInfo ["02aabb@1.2.3.4:9735", "02ccdd@5.6.7.8.onion:9735"] =
      (("02aabb", "1.2.3.4", 9735), none) := by
  decide

/-- C1: when the auto-channel response carries a payment whose fee parses to
`fee` and whose invoice decodes to `m` millisatoshis, `requestAutoChannel`
succeeds only if `fee` equals the invoice amount in satoshis; any mismatch
yields the fee-mismatch error, and on a match (with a parseable channel
size) the response is accepted. -/
theorem requestAutoChannel_fee_validation
    (decodeInvoice : String → Except String Bolt11Invoice)
    (resp : AutoChannelHttpResponse) (payment : LSPS1Payment) (fee : Nat) (m : Int)
    (hPay : resp.payment = some payment)
    (hFee : parseUint64 payment.bolt11.feeTotalSat = some fee)
    (hDec : decodeInvoice payment.bolt11.invoice = .ok ⟨m⟩) :
    (∀ r, requestAutoChannel decodeInvoice resp = .ok r →
        fee = goUint64OfInt (Int.tdiv m 1000)) ∧
    (fee ≠ goUint64OfInt (Int.tdiv m 1000) →
        requestAutoChannel decodeInvoice resp =
          .error "invoice amount does not match LSP fee") ∧
    (∀ channelSize, fee = goUint64OfInt (Int.tdiv m 1000) →
        parseUint64 resp.lspBalanceSat = some channelSize →
        requestAutoChannel decodeInvoice resp =
          .ok ⟨payment.bolt11.invoice, fee, channelSize⟩) := by
  have hstep : requestAutoChannel decodeInvoice resp =
      if fee ≠ goUint64OfInt (Int.tdiv m 1000) then
        Except.error "invoice amount does not match LSP fee"
      else
        match parseUint64 resp.lspBalanceSat with
        | none => Except.error "failed to parse lsp balance sat"
        | some channelSize =>
            Except.ok ⟨payment.bolt11.invoice, fee, channelSize⟩ := by
    simp only [requestAutoChannel, hPay, hFee, hDec]
    by_cases h : fee = goUint64OfInt (Int.tdiv m 1000)
    · rw [if_neg (not_not_intro h), if_neg (not_not_intro h)]
    · rw [if_pos h, if_pos h]
  refine ⟨?_, ?_, ?_⟩
  · intro r hr
    by_contra hne
    rw [hstep, if_pos hne] at hr
    exact Except.noConfusion hr
  · intro hne
    rw [hstep, if_pos hne]
  · intro channelSize heq hcs
    rw [hstep, if_neg (not_not_intro heq), hcs]

def decodeFiveHundredSats : String → Except String Bolt11Invoice :=
  fun _ => .ok ⟨500000⟩

def autoChannelResp500 : AutoChannelHttpResponse :=
  ⟨"100000", some ⟨⟨"lnbcrt5u1demo", "500"⟩⟩⟩

def autoChannelResp501 : AutoChannelHttpResponse :=
  ⟨"100000", some ⟨⟨"lnbcrt5u1demo", "501"⟩⟩⟩

/-- C1 witness: an invoice decoding to 500000 msat (500 sats) is accepted
with declared fee "500" and rejected with the fee-mismatch error with
declared fee "501". -/
theorem requestAutoChannel_fee_validation_witness :
    requestAutoChannel decodeFiveHundredSats autoChannelResp500 =
      .ok ⟨"lnbcrt5u1demo", 500, 100000⟩ ∧
    requestAutoChannel decodeFiveHundredSats autoChannelResp501 =
      .error "invoice amount does not match LSP fee" :=
  ⟨(requestAutoChannel_fee_validation decodeFiveHundredSats autoChannelResp500
      ⟨⟨"lnbcrt5u1demo", "500"⟩⟩ 500 500000 rfl (by decide) rfl).2.2
      100000 (by decide) (by decide),
   (requestAutoChannel_fee_validation decodeFiveHundredSats autoChannelResp501
      ⟨⟨"lnbcrt5u1demo", "501"⟩⟩ 501 500000 rfl (by decide) rfl).2.1 (by decide)⟩

/-- C10: in each provisioning operation (create/destroy/activate NWC node),
a failed token fetch is only logged: the operation behaves exactly as if no
token were stored, still issuing its HTTP request with a nil token rather
than aborting with the token-fetch error. -/
theorem provisioning_token_fetch_error_only_logged :
    ∀ (e : String) (doRequest : Option OAuthToken → Except String HttpResponse),
      createAlbyAccountNWCNode (.error e) doRequest =
        createAlbyAccountNWCNode (.ok none) doRequest ∧
      (createAlbyAccountNWCNode (.error e) doRequest).1 = none ∧
      destroyAlbyAccountNWCNode (.error e) doRequest =
        destroyAlbyAccountNWCNode (.ok none) doRequest ∧
      (destroyAlbyAccountNWCNode (.error e) doRequest).1 = none ∧
      activateAlbyAccountNWCNode (.error e) doRequest =
        activateAlbyAccountNWCNode (.ok none) doRequest ∧
      (activateAlbyAccountNWCNode (.error e) doRequest).1 = none := by
  intro e doRequest
  exact ⟨rfl, rfl, rfl, rfl, rfl, rfl⟩

end AlbyHub
